import Mathlib

/- Shallow embedding of src/netlify/functions/api.ts: password hashing and
verification, the fallback exchange-rate table, and the five route handlers.
JavaScript strings are modelled as lists of characters, byte buffers as lists
of naturals below 256, and the scrypt key-derivation primitive as a function
parameter (the code treats it as an opaque deterministic primitive). Fallible
steps are modelled with Except: a thrown exception is an error value. -/

namespace Curren

set_option maxRecDepth 8192

/-- hex digit character produced by Buffer.toString with hex encoding (lowercase). -/
def hexChar (n : Nat) : Char :=
  if n < 10 then Char.ofNat ('0'.toNat + n) else Char.ofNat ('a'.toNat + (n - 10))

/-- value of a hex digit character, as accepted by Buffer.from with hex encoding. -/
def hexDigit? (c : Char) : Option Nat :=
  if '0' ≤ c ∧ c ≤ '9' then some (c.toNat - '0'.toNat)
  else if 'a' ≤ c ∧ c ≤ 'f' then some (c.toNat - 'a'.toNat + 10)
  else if 'A' ≤ c ∧ c ≤ 'F' then some (c.toNat - 'A'.toNat + 10)
  else none

/-- Buffer.toString with hex encoding: two lowercase hex digits per byte. -/
def bytesToHex : List Nat → List Char
  | [] => []
  | b :: bs => hexChar (b / 16) :: hexChar (b % 16) :: bytesToHex bs

/-- Buffer.from with hex encoding: consumes pairs of hex digits and stops at the
first invalid pair or odd leftover character, as Node does. -/
def hexToBytes : List Char → List Nat
  | c1 :: c2 :: rest =>
    match hexDigit? c1, hexDigit? c2 with
    | some h, some l => (16 * h + l) :: hexToBytes rest
    | _, _ => []
  | _ => []

/-- JavaScript String.split with the dot character as separator. -/
def splitDot : List Char → List (List Char)
  | [] => [[]]
  | c :: cs =>
    if c = '.' then [] :: splitDot cs
    else
      match splitDot cs with
      | r :: rs => (c :: r) :: rs
      | [] => [[c]]

/-- type of the scrypt primitive: password, salt and key length to derived bytes. -/
abbrev ScryptFn := List Char → List Char → Nat → List Nat

/-- scrypt's contract: it returns exactly the requested number of bytes. -/
def ScryptOk (f : ScryptFn) : Prop :=
  ∀ p s n, (f p s n).length = n ∧ ∀ b ∈ f p s n, b < 256

/-- crypto.timingSafeEqual: throws when the buffers differ in length, otherwise
reports byte equality. -/
def timingSafeEqual (a b : List Nat) : Except (List Char) Bool :=
  if a.length = b.length then Except.ok (a == b)
  else Except.error "Input buffers must have the same byte length".data

/-- hashPassword from api.ts. The 16 random bytes drawn by randomBytes are the
saltBytes parameter: the random draw is treated as an arbitrary input. -/
def hashPassword (f : ScryptFn) (saltBytes : List Nat) (password : List Char) : List Char :=
  let salt := bytesToHex saltBytes
  let buf := f password salt 64
  bytesToHex buf ++ '.' :: salt

/-- comparePasswords from api.ts: splits the stored string on the dot, hex-decodes
the first part, re-derives a key from the supplied password and the second part,
and compares in constant time. When the stored string has no dot the destructured
salt is undefined and scrypt throws, modelled as an error. -/
def comparePasswords (f : ScryptFn) (supplied stored : List Char) : Except (List Char) Bool :=
  match splitDot stored with
  | hashed :: salt :: _ =>
    timingSafeEqual (hexToBytes hashed) (f supplied salt 64)
  | _ => Except.error "salt is undefined".data

theorem hexDigit_hexChar : ∀ n, n < 16 → hexDigit? (hexChar n) = some n := by decide

theorem hexChar_ne_dot : ∀ n, n < 16 → hexChar n ≠ '.' := by decide

theorem bytesToHex_no_dot (bs : List Nat) (h : ∀ b ∈ bs, b < 256) :
    '.' ∉ bytesToHex bs := by
  induction bs with
  | nil => simp [bytesToHex]
  | cons b bs ih =>
    have hb : b < 256 := h b (by simp)
    have h1 : b / 16 < 16 := Nat.div_lt_of_lt_mul (by omega)
    have h2 : b % 16 < 16 := Nat.mod_lt _ (by omega)
    simp only [bytesToHex, List.mem_cons, not_or]
    refine ⟨?_, ?_, ih (fun x hx => h x (by simp [hx]))⟩
    · exact fun hc => hexChar_ne_dot _ h1 hc.symm
    · exact fun hc => hexChar_ne_dot _ h2 hc.symm

theorem hexToBytes_bytesToHex (bs : List Nat) (h : ∀ b ∈ bs, b < 256) :
    hexToBytes (bytesToHex bs) = bs := by
  induction bs with
  | nil => rfl
  | cons b bs ih =>
    have hb : b < 256 := h b (by simp)
    have h1 : b / 16 < 16 := Nat.div_lt_of_lt_mul (by omega)
    have h2 : b % 16 < 16 := Nat.mod_lt _ (by omega)
    simp only [bytesToHex, hexToBytes, hexDigit_hexChar _ h1, hexDigit_hexChar _ h2]
    rw [ih (fun x hx => h x (by simp [hx]))]
    congr 1
    omega

theorem bytesToHex_length (bs : List Nat) : (bytesToHex bs).length = 2 * bs.length := by
  induction bs with
  | nil => rfl
  | cons b bs ih => simp [bytesToHex, ih]; omega

theorem splitDot_no_dot (l : List Char) (h : '.' ∉ l) : splitDot l = [l] := by
  induction l with
  | nil => rfl
  | cons c cs ih =>
    have hc : c ≠ '.' := fun hc => h (by simp [hc])
    have : splitDot cs = [cs] := ih (fun hm => h (by simp [hm]))
    simp [splitDot, hc, this]

theorem splitDot_append (a b : List Char) (ha : '.' ∉ a) :
    splitDot (a ++ '.' :: b) = a :: splitDot b := by
  induction a with
  | nil => simp [splitDot]
  | cons c cs ih =>
    have hc : c ≠ '.' := fun hc => ha (by simp [hc])
    have h2 := ih (fun hm => ha (by simp [hm]))
    simp only [List.cons_append, splitDot, hc, if_false, List.append_eq, h2]

/-- the C1 proof obligation on a well-formed stored credential, shared with login. -/
theorem comparePasswords_of_wellformed (f : ScryptFn) (hf : ScryptOk f)
    (pw : List Char) (kb : List Nat) (sc : List Char)
    (hk : kb.length = 64) (hkb : ∀ b ∈ kb, b < 256) (hsc : '.' ∉ sc) :
    comparePasswords f pw (bytesToHex kb ++ '.' :: sc) = Except.ok (kb == f pw sc 64) := by
  unfold comparePasswords
  rw [splitDot_append _ _ (bytesToHex_no_dot kb hkb), splitDot_no_dot sc hsc]
  simp only [hexToBytes_bytesToHex kb hkb, timingSafeEqual]
  rw [if_pos]
  rw [hk, (hf pw sc 64).1]

/-- C1: for every password p, verifying p against the stored string produced by
hashing p succeeds, with the random salt drawn in hashPassword treated as an
arbitrary input. -/
theorem C1_verify_hash (f : ScryptFn) (hf : ScryptOk f) (saltBytes : List Nat)
    (hs : ∀ b ∈ saltBytes, b < 256) (p : List Char) :
    comparePasswords f p (hashPassword f saltBytes p) = Except.ok true := by
  show comparePasswords f p
    (bytesToHex (f p (bytesToHex saltBytes) 64) ++ '.' :: bytesToHex saltBytes) = Except.ok true
  rw [comparePasswords_of_wellformed f hf p (f p (bytesToHex saltBytes) 64) (bytesToHex saltBytes)
      (hf p (bytesToHex saltBytes) 64).1 (hf p (bytesToHex saltBytes) 64).2
      (bytesToHex_no_dot saltBytes hs)]
  simp

/-- C1 witness at a concrete scrypt instance, salt and password. -/
theorem C1_verify_hash_witness :
    comparePasswords (fun _ _ n => List.replicate n 7) ['p', 'w']
      (hashPassword (fun _ _ n => List.replicate n 7) [0, 255] ['p', 'w']) = Except.ok true :=
  C1_verify_hash (fun _ _ n => List.replicate n 7)
    (fun _ _ n => ⟨List.length_replicate n 7, fun b hb => by
      have hb7 := List.eq_of_mem_replicate hb
      omega⟩)
    [0, 255] (by decide) ['p', 'w']

/-- shape of the exchange-rate payload: base code, rate table and update time. -/
structure RateSnapshot where
  base_code : String
  conversion_rates : List (String × ℚ)
  time_last_update_utc : String
deriving DecidableEq

/-- baseRates table from getFallbackRates, in source order, relative to USD. -/
def baseRates : List (String × ℚ) :=
  [("USD", 1), ("EUR", 85/100), ("GBP", 73/100), ("JPY", 11045/100),
   ("CAD", 125/100), ("AUD", 132/100), ("CHF", 92/100), ("CNY", 645/100),
   ("INR", 745/10), ("RUB", 732/10)]

/-- the baseValue expression of getFallbackRates: a table lookup with the
JavaScript or-default 1, so a missing key (undefined) falls back to 1, and a
zero entry would also be falsy. -/
def baseValue (c : String) : ℚ :=
  match List.lookup c baseRates with
  | some v => if v = 0 then 1 else v
  | none => 1

/-- getFallbackRates from api.ts. The new Date value is the now parameter, since
wall-clock time is an input of the embedding. Object.entries iterates in source
order, modelled by List.map over the table. -/
def getFallbackRates (baseCurrency : String) (now : String) : RateSnapshot :=
  { base_code := baseCurrency
    conversion_rates := baseRates.map (fun p => (p.1, p.2 / baseValue baseCurrency))
    time_last_update_utc := now }

/-- URL built by fetchExchangeRates for the external provider. -/
def apiUrl (key base : String) : String :=
  "https://v6.exchangerate-api.com/v6/" ++ key ++ "/latest/" ++ base

/-- fetchExchangeRates from api.ts. The EXCHANGE_RATE_API_KEY environment
variable is the apiKey parameter (none models an unset variable; the empty
string is falsy). httpGet models axios.get, whose error value covers network
failures and non-2xx statuses alike, with response.data as the ok value; the
surrounding try/catch turns any throw into the fallback snapshot. -/
def fetchExchangeRates (apiKey : Option String)
    (httpGet : String → Except (List Char) RateSnapshot)
    (now : String) (baseCurrency : String := "USD") : RateSnapshot :=
  match apiKey with
  | some key =>
    if key = "" then getFallbackRates baseCurrency now
    else
      match httpGet (apiUrl key baseCurrency) with
      | Except.ok resp => resp
      | Except.error _ => getFallbackRates baseCurrency now
  | none => getFallbackRates baseCurrency now

theorem lookup_map_div (l : List (String × ℚ)) (c : String) (v : ℚ) :
    List.lookup c (l.map (fun p => (p.1, p.2 / v))) = (List.lookup c l).map (fun r => r / v) := by
  induction l with
  | nil => rfl
  | cons a t ih =>
    obtain ⟨k, r⟩ := a
    simp only [List.map_cons, List.lookup]
    cases h : c == k <;> simp [h, ih]

theorem baseValue_EUR : baseValue "EUR" = 85 / 100 := by
  have hl : List.lookup "EUR" baseRates = some (85 / 100) := rfl
  unfold baseValue
  rw [hl]
  norm_num

/-- C3: the fallback snapshot maps each table currency to its baseline rate
divided by the requested currency's baseline rate, an absent base currency gets
baseline 1, and for base EUR the USD rate is 1 / 0.85 = 20 / 17 exactly while
the EUR rate is 1. -/
theorem C3_fallback_rates (base now : String) :
    (∀ c r, List.lookup c baseRates = some r →
      List.lookup c (getFallbackRates base now).conversion_rates = some (r / baseValue base)) ∧
    (List.lookup base baseRates = none → baseValue base = 1) ∧
    List.lookup "USD" (getFallbackRates "EUR" now).conversion_rates = some (20 / 17) ∧
    List.lookup "EUR" (getFallbackRates "EUR" now).conversion_rates = some 1 := by
  refine ⟨?_, ?_, ?_, ?_⟩
  · intro c r h
    simp [getFallbackRates, lookup_map_div, h]
  · intro h
    simp [baseValue, h]
  · rw [show (getFallbackRates "EUR" now).conversion_rates
        = baseRates.map (fun p => (p.1, p.2 / baseValue "EUR")) from rfl,
      lookup_map_div, show List.lookup "USD" baseRates = some 1 from rfl]
    simp only [Option.map_some', baseValue_EUR]
    norm_num
  · rw [show (getFallbackRates "EUR" now).conversion_rates
        = baseRates.map (fun p => (p.1, p.2 / baseValue "EUR")) from rfl,
      lookup_map_div, show List.lookup "EUR" baseRates = some (85 / 100) from rfl]
    simp only [Option.map_some', baseValue_EUR]
    norm_num

/-- C3 witness: concrete instances of the quantified parts, at a base currency
absent from the table. -/
theorem C3_fallback_rates_witness :
    List.lookup "USD" (getFallbackRates "ZZZ" "t").conversion_rates
      = some (1 / baseValue "ZZZ") ∧ baseValue "ZZZ" = 1 :=
  ⟨(C3_fallback_rates "ZZZ" "t").1 "USD" 1 (by decide),
   (C3_fallback_rates "ZZZ" "t").2.1 (by decide)⟩

/-- C7: fetchExchangeRates returns the provider response verbatim when a
credential is configured and the GET succeeds, and the locally computed
fallback snapshot when the credential is missing or empty or the GET throws. -/
theorem C7_fetch_rates (apiKey : Option String)
    (httpGet : String → Except (List Char) RateSnapshot) (now base : String) :
    (∀ key r, apiKey = some key → key ≠ "" → httpGet (apiUrl key base) = Except.ok r →
      fetchExchangeRates apiKey httpGet now base = r) ∧
    (apiKey = none → fetchExchangeRates apiKey httpGet now base = getFallbackRates base now) ∧
    (apiKey = some "" → fetchExchangeRates apiKey httpGet now base = getFallbackRates base now) ∧
    (∀ key e, apiKey = some key → httpGet (apiUrl key base) = Except.error e →
      fetchExchangeRates apiKey httpGet now base = getFallbackRates base now) := by
  refine ⟨?_, ?_, ?_, ?_⟩
  · rintro key r rfl hk hr
    simp [fetchExchangeRates, hk, hr]
  · rintro rfl
    rfl
  · rintro rfl
    rfl
  · rintro key e rfl he
    by_cases hk : key = ""
    · simp [fetchExchangeRates, hk]
    · simp [fetchExchangeRates, hk, he]

/-- C7 witness: the three cases at concrete keys, providers and bases. -/
theorem C7_fetch_rates_witness :
    fetchExchangeRates (some "k") (fun _ => Except.ok (getFallbackRates "USD" "t")) "t" "EUR"
      = getFallbackRates "USD" "t" ∧
    fetchExchangeRates none (fun _ => Except.error []) "t" "EUR" = getFallbackRates "EUR" "t" ∧
    fetchExchangeRates (some "k") (fun _ => Except.error ['x']) "t" "EUR"
      = getFallbackRates "EUR" "t" :=
  ⟨(C7_fetch_rates (some "k") (fun _ => Except.ok (getFallbackRates "USD" "t")) "t" "EUR").1
      "k" (getFallbackRates "USD" "t") rfl (by decide) rfl,
   (C7_fetch_rates none (fun _ => Except.error []) "t" "EUR").2.1 rfl,
   (C7_fetch_rates (some "k") (fun _ => Except.error ['x']) "t" "EUR").2.2.2 "k" ['x'] rfl rfl⟩

/-- JSON-ish field value in a request body or stored record: a string, an
integer number, or the NaN produced by a failed parseInt coercion. -/
inductive Val where
  | vstr : List Char → Val
  | vnum : Int → Val
  | vnan : Val
deriving DecidableEq

/-- a JavaScript object as an association list; object literals and spreads keep
keys unique, so lookups take the first match. -/
abbrev Obj := List (String × Val)

/-- property access o.k, none when the key is absent (undefined). -/
def getF (o : Obj) (k : String) : Option Val :=
  List.lookup k o

/-- the spread-with-override pattern: keeps the object's key order, replacing
the value at k, or appends k when it was absent. -/
def setField (o : Obj) (k : String) (v : Val) : Obj :=
  if o.any (fun p => p.1 == k) then
    o.map (fun p => if p.1 == k then (k, v) else p)
  else o ++ [(k, v)]

/-- the rest-spread that drops the password key; keys are unique in JavaScript
objects, so filtering every password entry is exactly the rest pattern. -/
def stripPassword (o : Obj) : Obj :=
  o.filter (fun p => p.1 != "password")

/-- an HTTP response: status code and JSON body. -/
structure HResp where
  status : Nat
  body : Obj
deriving DecidableEq

/-- body of res.status(...).json with a single error message. -/
def errBody (msg : String) : Obj := [("error", Val.vstr msg.data)]

/-- the POST register route from api.ts. getUser and createUser are the two
storage calls, Except-valued so a storage throw is an error; the second
component of the result lists the user objects passed to createUser, so a 400
response provably performs no creation. A non-string password makes scrypt
throw inside hashPassword, landing in the catch. -/
def registerHandler (f : ScryptFn) (saltBytes : List Nat)
    (getUser : Option Val → Except (List Char) (Option Obj))
    (createUser : Obj → Except (List Char) Obj)
    (body : Obj) : HResp × List Obj :=
  match getUser (getF body "username") with
  | Except.error _ => (⟨500, errBody "Failed to register user"⟩, [])
  | Except.ok (some _) => (⟨400, errBody "Username already exists"⟩, [])
  | Except.ok none =>
    match getF body "password" with
    | some (Val.vstr pw) =>
      match createUser (setField body "password" (Val.vstr (hashPassword f saltBytes pw))) with
      | Except.error _ => (⟨500, errBody "Failed to register user"⟩,
          [setField body "password" (Val.vstr (hashPassword f saltBytes pw))])
      | Except.ok user => (⟨201, stripPassword user⟩,
          [setField body "password" (Val.vstr (hashPassword f saltBytes pw))])
    | _ => (⟨500, errBody "Failed to register user"⟩, [])

/-- the POST login route from api.ts. A user record whose password field is not
a string makes String.split throw, and a non-string supplied password makes
scrypt throw; both land in the catch as a 500, like a comparePasswords error. -/
def loginHandler (f : ScryptFn)
    (getUser : Option Val → Except (List Char) (Option Obj))
    (body : Obj) : HResp :=
  match getUser (getF body "username") with
  | Except.error _ => ⟨500, errBody "Login failed"⟩
  | Except.ok none => ⟨401, errBody "Invalid username or password"⟩
  | Except.ok (some user) =>
    match getF user "password", getF body "password" with
    | some (Val.vstr stored), some (Val.vstr pw) =>
      match comparePasswords f pw stored with
      | Except.ok true => ⟨200, stripPassword user⟩
      | Except.ok false => ⟨401, errBody "Invalid username or password"⟩
      | Except.error _ => ⟨500, errBody "Login failed"⟩
    | _, _ => ⟨500, errBody "Login failed"⟩

/-- Modelled from the spec: the storage collaborator lives in server/storage,
outside src. The spec describes an opaque store reached through
getUserByUsername and createUser in which usernames are unique; it is modelled
as the list of persisted user objects, looked up by the username field. -/
def getUserByUsernameM (store : List Obj) (v : Option Val) : Option Obj :=
  store.find? (fun u => getF u "username" == v)

/-- Modelled from the spec: the register route wired to the in-memory storage
model (createUser appends and echoes the record), returning the response
together with the storage state after the call. -/
def registerApi (f : ScryptFn) (saltBytes : List Nat) (store : List Obj)
    (body : Obj) : HResp × List Obj :=
  let out := registerHandler f saltBytes
    (fun v => Except.ok (getUserByUsernameM store v)) (fun u => Except.ok u) body
  (out.1, store ++ out.2)

/-- decimal digit test used by parseInt. -/
def isDecDigit (c : Char) : Bool := '0' ≤ c ∧ c ≤ '9'

/-- hex digit test used by parseInt after a 0x prefix. -/
def isHexDigit (c : Char) : Bool := (hexDigit? c).isSome

/-- value of a string of decimal digits. -/
def decDigitsVal (l : List Char) : Nat :=
  l.foldl (fun a c => 10 * a + (c.toNat - '0'.toNat)) 0

/-- value of a string of hex digits. -/
def hexDigitsVal (l : List Char) : Nat :=
  l.foldl (fun a c => 16 * a + (hexDigit? c).getD 0) 0

/-- ECMAScript whitespace trimmed by parseInt (the ASCII subset). -/
def isJsSpace (c : Char) : Bool :=
  c = ' ' ∨ c = '\t' ∨ c = '\n' ∨ c = '\r' ∨ c = '\x0b' ∨ c = '\x0c'

/-- ECMAScript parseInt with an undefined radix: trims leading whitespace, reads
an optional sign, switches to base 16 after a 0x or 0X prefix, and takes the
longest prefix of digits, with the empty prefix giving NaN, modelled as none. -/
def parseIntJs (s : List Char) : Option Int :=
  let t := s.dropWhile isJsSpace
  let sign : Int := match t with
    | '-' :: _ => -1
    | _ => 1
  let t2 := match t with
    | '-' :: r => r
    | '+' :: r => r
    | r => r
  match t2 with
  | '0' :: 'x' :: r =>
    let ds := r.takeWhile isHexDigit
    if ds.isEmpty then none else some (sign * (hexDigitsVal ds : Int))
  | '0' :: 'X' :: r =>
    let ds := r.takeWhile isHexDigit
    if ds.isEmpty then none else some (sign * (hexDigitsVal ds : Int))
  | _ =>
    let ds := t2.takeWhile isDecDigit
    if ds.isEmpty then none else some (sign * (decDigitsVal ds : Int))

/-- parseInt applied to a possibly absent query string: an absent parameter is
undefined, whose string form parses to NaN. -/
def parseIntJsOpt (s : Option (List Char)) : Option Int :=
  match s with
  | some t => parseIntJs t
  | none => none

/-- the parseInt(x) or-default idiom: NaN and 0 are falsy and give the default,
any other integer is kept. -/
def parseIntOr (d : Int) (s : Option (List Char)) : Int :=
  match parseIntJsOpt s with
  | some n => if n = 0 then d else n
  | none => d

/-- parseInt applied to a JSON body value: a number is stringified and reparsed
(an integer round-trips), NaN and absent values parse to NaN. -/
def parseIntVal (v : Option Val) : Option Int :=
  match v with
  | some (Val.vstr s) => parseIntJs s
  | some (Val.vnum n) => some n
  | some Val.vnan => none
  | none => none

/-- the POST conversions route from api.ts: coerces userId with parseInt,
spreads the body with the coerced userId, persists through
storage.saveConversion and responds 201 with the saved record. -/
def createConversionHandler (save : Obj → Except (List Char) Obj) (body : Obj) : HResp :=
  match save (setField body "userId"
      (match parseIntVal (getF body "userId") with
        | some n => Val.vnum n
        | none => Val.vnan)) with
  | Except.ok c => ⟨201, c⟩
  | Except.error _ => ⟨500, errBody "Failed to save conversion"⟩

/-- the GET conversions route from api.ts: parses userId, page and pageSize from
the query (page and pageSize with or-defaults 1 and 10), delegates to
storage.getConversions and responds 200 with its result. -/
def listConversionsHandler (g : Option Int → Int → Int → Except (List Char) Obj)
    (userId page pageSize : Option (List Char)) : HResp :=
  match g (parseIntJsOpt userId) (parseIntOr 1 page) (parseIntOr 10 pageSize) with
  | Except.ok r => ⟨200, r⟩
  | Except.error _ => ⟨500, errBody "Failed to fetch conversions"⟩

/-- the GET exchange-rates route from api.ts: reads the base query parameter
with or-default USD and responds 200 with the resolved snapshot;
fetchExchangeRates recovers every failure into the fallback snapshot, so the
route's own catch is unreachable. -/
def exchangeRatesHandler (apiKey : Option String)
    (httpGet : String → Except (List Char) RateSnapshot)
    (now : String) (baseQ : Option String) : Nat × RateSnapshot :=
  let base := match baseQ with
    | some s => if s = "" then "USD" else s
    | none => "USD"
  (200, fetchExchangeRates apiKey httpGet now base)

/-- a stored credential of the shape produced by hashPassword: 64 hex-encoded
key bytes, the dot, and a salt free of dots. -/
def WellFormedStored (s : List Char) : Prop :=
  ∃ kb sc, s = bytesToHex kb ++ '.' :: sc ∧ kb.length = 64 ∧
    (∀ b ∈ kb, b < 256) ∧ '.' ∉ sc

theorem comparePasswords_ok_of_wellformed (f : ScryptFn) (hf : ScryptOk f)
    (pw s : List Char) (hs : WellFormedStored s) :
    ∃ b, comparePasswords f pw s = Except.ok b := by
  obtain ⟨kb, sc, rfl, hk, hkb, hsc⟩ := hs
  exact ⟨_, comparePasswords_of_wellformed f hf pw kb sc hk hkb hsc⟩

theorem stripPassword_no_password (o : Obj) (v : Val) :
    ("password", v) ∉ stripPassword o := by
  intro hm
  have hp := List.of_mem_filter hm
  simp at hp

/-- C2: hashPassword hex-encodes the 16 salt bytes, derives a 64-byte key from
the password and the hex salt, and returns the derived key in hex, a dot and
the salt in hex; the derived part is 128 hex characters and the salt part 32. -/
theorem C2_hash_structure (f : ScryptFn) (hf : ScryptOk f) (sb : List Nat)
    (hlen : sb.length = 16) (hsb : ∀ b ∈ sb, b < 256) (p : List Char) :
    hashPassword f sb p = bytesToHex (f p (bytesToHex sb) 64) ++ '.' :: bytesToHex sb ∧
    (f p (bytesToHex sb) 64).length = 64 ∧
    splitDot (hashPassword f sb p) = [bytesToHex (f p (bytesToHex sb) 64), bytesToHex sb] ∧
    (bytesToHex (f p (bytesToHex sb) 64)).length = 128 ∧
    (bytesToHex sb).length = 32 := by
  refine ⟨rfl, (hf p (bytesToHex sb) 64).1, ?_, ?_, ?_⟩
  · show splitDot (bytesToHex (f p (bytesToHex sb) 64) ++ '.' :: bytesToHex sb) = _
    rw [splitDot_append _ _ (bytesToHex_no_dot _ (hf p (bytesToHex sb) 64).2),
      splitDot_no_dot _ (bytesToHex_no_dot sb hsb)]
  · rw [bytesToHex_length, (hf p (bytesToHex sb) 64).1]
  · rw [bytesToHex_length, hlen]

/-- C2 witness at a concrete scrypt instance, 16-byte salt and password. -/
theorem C2_hash_structure_witness :
    splitDot (hashPassword (fun _ _ n => List.replicate n 3)
        [0, 1, 2, 3, 4, 5, 6, 7, 8, 9, 10, 11, 12, 13, 14, 15] ['q'])
      = [bytesToHex (List.replicate 64 3),
          bytesToHex [0, 1, 2, 3, 4, 5, 6, 7, 8, 9, 10, 11, 12, 13, 14, 15]] :=
  (C2_hash_structure (fun _ _ n => List.replicate n 3)
    (fun _ _ n => ⟨List.length_replicate n 3, fun b hb => by
      have hb3 := List.eq_of_mem_replicate hb
      omega⟩)
    [0, 1, 2, 3, 4, 5, 6, 7, 8, 9, 10, 11, 12, 13, 14, 15]
    (by decide) (by decide) ['q']).2.2.1

/-- C4: register responds 400 and leaves storage unchanged when the username is
already present, and otherwise persists the user with the hashed password and
responds 201. -/
theorem C4_register (f : ScryptFn) (sb : List Nat) (store : List Obj)
    (body : Obj) (pw : List Char) (hpw : getF body "password" = some (Val.vstr pw)) :
    ((getUserByUsernameM store (getF body "username")).isSome →
      (registerApi f sb store body).1.status = 400 ∧
      (registerApi f sb store body).2 = store) ∧
    (getUserByUsernameM store (getF body "username") = none →
      (registerApi f sb store body).1.status = 201 ∧
      (registerApi f sb store body).2
        = store ++ [setField body "password" (Val.vstr (hashPassword f sb pw))]) := by
  constructor
  · intro h
    obtain ⟨u, hu⟩ := Option.isSome_iff_exists.mp h
    constructor <;> simp [registerApi, registerHandler, hu]
  · intro h
    constructor <;> simp [registerApi, registerHandler, h, hpw]

/-- C4 witness: a duplicate registration is refused with 400 and leaves the
store untouched, and a fresh registration appends the hashed user with 201. -/
theorem C4_register_witness :
    ((registerApi (fun _ _ n => List.replicate n 0) [1]
        [[("username", Val.vstr ['u']), ("password", Val.vstr ['s'])]]
        [("username", Val.vstr ['u']), ("password", Val.vstr ['p'])]).1.status = 400 ∧
      (registerApi (fun _ _ n => List.replicate n 0) [1]
        [[("username", Val.vstr ['u']), ("password", Val.vstr ['s'])]]
        [("username", Val.vstr ['u']), ("password", Val.vstr ['p'])]).2
        = [[("username", Val.vstr ['u']), ("password", Val.vstr ['s'])]]) ∧
    ((registerApi (fun _ _ n => List.replicate n 0) [1] []
        [("username", Val.vstr ['u']), ("password", Val.vstr ['p'])]).1.status = 201 ∧
      (registerApi (fun _ _ n => List.replicate n 0) [1] []
        [("username", Val.vstr ['u']), ("password", Val.vstr ['p'])]).2
        = [setField [("username", Val.vstr ['u']), ("password", Val.vstr ['p'])]
            "password" (Val.vstr (hashPassword (fun _ _ n => List.replicate n 0) [1] ['p']))]) :=
  ⟨(C4_register (fun _ _ n => List.replicate n 0) [1]
      [[("username", Val.vstr ['u']), ("password", Val.vstr ['s'])]]
      [("username", Val.vstr ['u']), ("password", Val.vstr ['p'])] ['p'] rfl).1 (by decide),
   (C4_register (fun _ _ n => List.replicate n 0) [1] []
      [("username", Val.vstr ['u']), ("password", Val.vstr ['p'])] ['p'] rfl).2 rfl⟩

/-- C5: with well-formed stored credentials, login responds 401 exactly when
the user is absent or password verification returns false, and on a successful
verification responds 200 with the user record sans password. -/
theorem C5_login (f : ScryptFn) (hf : ScryptOk f) (body : Obj) (pw : List Char)
    (hpw : getF body "password" = some (Val.vstr pw)) (r : Option Obj)
    (hwf : ∀ u, r = some u → ∃ s, getF u "password" = some (Val.vstr s) ∧ WellFormedStored s) :
    ((loginHandler f (fun _ => Except.ok r) body).status = 401 ↔
      r = none ∨ ∃ u s, r = some u ∧ getF u "password" = some (Val.vstr s) ∧
        comparePasswords f pw s = Except.ok false) ∧
    (∀ u s, r = some u → getF u "password" = some (Val.vstr s) →
      comparePasswords f pw s = Except.ok true →
      loginHandler f (fun _ => Except.ok r) body = ⟨200, stripPassword u⟩) := by
  cases r with
  | none =>
    refine ⟨⟨fun _ => Or.inl rfl, fun _ => rfl⟩, ?_⟩
    intro u s h
    exact absurd h (by simp)
  | some u =>
    obtain ⟨s, hsu, hwfs⟩ := hwf u rfl
    obtain ⟨kb, sc, hseq, hk, hkb, hsc⟩ := hwfs
    have hcw := comparePasswords_of_wellformed f hf pw kb sc hk hkb hsc
    rw [← hseq] at hcw
    have hinj : ∀ s2 : List Char, getF u "password" = some (Val.vstr s2) → s2 = s := by
      intro s2 h2
      rw [hsu] at h2
      exact (Val.vstr.inj (Option.some.inj h2)).symm
    cases hbv : kb == f pw sc 64 with
    | false =>
      rw [hbv] at hcw
      refine ⟨⟨fun _ => Or.inr ⟨u, s, rfl, hsu, hcw⟩, fun _ => ?_⟩, ?_⟩
      · simp [loginHandler, hsu, hpw, hcw]
      · intro u2 s2 hu2 hsu2 hcmp
        obtain rfl : u = u2 := Option.some.inj hu2
        obtain rfl : s2 = s := hinj s2 hsu2
        rw [hcw] at hcmp
        exact absurd hcmp (by simp)
    | true =>
      rw [hbv] at hcw
      have h200 : loginHandler f (fun _ => Except.ok (some u)) body = ⟨200, stripPassword u⟩ := by
        simp [loginHandler, hsu, hpw, hcw]
      refine ⟨⟨fun h401 => ?_, fun hr => ?_⟩, ?_⟩
      · rw [h200] at h401
        exact absurd h401 (by simp)
      · rcases hr with hnone | ⟨u2, s2, hu2, hsu2, hcmp⟩
        · exact absurd hnone (by simp)
        · obtain rfl : u = u2 := Option.some.inj hu2
          obtain rfl : s2 = s := hinj s2 hsu2
          rw [hcw] at hcmp
          exact absurd hcmp (by simp)
      · intro u2 s2 hu2 hsu2 hcmp
        obtain rfl : u = u2 := Option.some.inj hu2
        exact h200

/-- C5 witness: a concrete login against a well-formed stored credential whose
key matches the supplied password verifies and returns 200 with the stripped
record. -/
theorem C5_login_witness :
    loginHandler (fun _ _ n => List.replicate n 0)
      (fun _ => Except.ok (some [("username", Val.vstr ['u']),
        ("password", Val.vstr (List.replicate 128 '0' ++ '.' :: ['0', '1']))]))
      [("username", Val.vstr ['u']), ("password", Val.vstr ['p'])]
      = ⟨200, stripPassword [("username", Val.vstr ['u']),
          ("password", Val.vstr (List.replicate 128 '0' ++ '.' :: ['0', '1']))]⟩ :=
  (C5_login (fun _ _ n => List.replicate n 0)
    (fun _ _ n => ⟨List.length_replicate n 0, fun b hb => by
      have hb0 := List.eq_of_mem_replicate hb
      omega⟩)
    [("username", Val.vstr ['u']), ("password", Val.vstr ['p'])] ['p'] rfl
    (some [("username", Val.vstr ['u']),
      ("password", Val.vstr (List.replicate 128 '0' ++ '.' :: ['0', '1']))])
    (fun u hu => Option.some.inj hu ▸
      ⟨List.replicate 128 '0' ++ '.' :: ['0', '1'], rfl,
        List.replicate 64 0, ['0', '1'], by decide, by simp, by simp, by decide⟩)).2
    [("username", Val.vstr ['u']),
      ("password", Val.vstr (List.replicate 128 '0' ++ '.' :: ['0', '1']))]
    (List.replicate 128 '0' ++ '.' :: ['0', '1']) rfl rfl rfl

theorem registerHandler_spec (f : ScryptFn) (sb : List Nat)
    (g : Option Val → Except (List Char) (Option Obj))
    (cr : Obj → Except (List Char) Obj) (body : Obj) :
    ((registerHandler f sb g cr body).1.status = 400 ∧
      (registerHandler f sb g cr body).1.body = errBody "Username already exists") ∨
    ((registerHandler f sb g cr body).1.status = 500 ∧
      (registerHandler f sb g cr body).1.body = errBody "Failed to register user") ∨
    ((registerHandler f sb g cr body).1.status = 201 ∧
      ∃ user, (registerHandler f sb g cr body).1.body = stripPassword user) := by
  unfold registerHandler
  repeat' split
  all_goals first
    | exact Or.inl ⟨rfl, rfl⟩
    | exact Or.inr (Or.inl ⟨rfl, rfl⟩)
    | exact Or.inr (Or.inr ⟨rfl, _, rfl⟩)

theorem loginHandler_spec (f : ScryptFn)
    (g : Option Val → Except (List Char) (Option Obj)) (body : Obj) :
    ((loginHandler f g body).status = 401 ∧
      (loginHandler f g body).body = errBody "Invalid username or password") ∨
    ((loginHandler f g body).status = 500 ∧
      (loginHandler f g body).body = errBody "Login failed") ∨
    ((loginHandler f g body).status = 200 ∧
      ∃ user, (loginHandler f g body).body = stripPassword user) := by
  unfold loginHandler
  repeat' split
  all_goals first
    | exact Or.inl ⟨rfl, rfl⟩
    | exact Or.inr (Or.inl ⟨rfl, rfl⟩)
    | exact Or.inr (Or.inr ⟨rfl, _, rfl⟩)

/-- C6: successful register and login responses contain no password field,
whatever user record storage returns. -/
theorem C6_no_password_leak (f : ScryptFn) (sb : List Nat)
    (g : Option Val → Except (List Char) (Option Obj))
    (cr : Obj → Except (List Char) Obj) (body : Obj) :
    ((registerHandler f sb g cr body).1.status = 201 →
      ∀ v, ("password", v) ∉ (registerHandler f sb g cr body).1.body) ∧
    ((loginHandler f g body).status = 200 →
      ∀ v, ("password", v) ∉ (loginHandler f g body).body) := by
  constructor
  · intro h v
    rcases registerHandler_spec f sb g cr body with ⟨h1, _⟩ | ⟨h1, _⟩ | ⟨h1, user, hb⟩
    · exfalso
      omega
    · exfalso
      omega
    · rw [hb]
      exact stripPassword_no_password user v
  · intro h v
    rcases loginHandler_spec f g body with ⟨h1, _⟩ | ⟨h1, _⟩ | ⟨h1, user, hb⟩
    · exfalso
      omega
    · exfalso
      omega
    · rw [hb]
      exact stripPassword_no_password user v

/-- C6 witness: a successful concrete registration whose storage echo still
carries the password field yields a body without it. -/
theorem C6_no_password_leak_witness :
    ("password", Val.vnum 0) ∉ (registerHandler (fun _ _ n => List.replicate n 0) [1]
      (fun _ => Except.ok none) (fun u => Except.ok u)
      [("username", Val.vstr ['u']), ("password", Val.vstr ['p'])]).1.body :=
  (C6_no_password_leak (fun _ _ n => List.replicate n 0) [1]
    (fun _ => Except.ok none) (fun u => Except.ok u)
    [("username", Val.vstr ['u']), ("password", Val.vstr ['p'])]).1 rfl (Val.vnum 0)

/-- C8: the list-conversions route coerces userId, page and pageSize with
parseInt (NaN modelled as none for userId), defaults page to 1 and pageSize to
10 when the parameter is absent or does not parse to a nonzero integer, calls
storage.getConversions with exactly those three values and responds 200 with
its result. -/
theorem C8_list_conversions (g : Option Int → Int → Int → Except (List Char) Obj)
    (userId page pageSize : Option (List Char)) :
    (∀ r, g (parseIntJsOpt userId) (parseIntOr 1 page) (parseIntOr 10 pageSize) = Except.ok r →
      listConversionsHandler g userId page pageSize = ⟨200, r⟩) ∧
    (∀ d : Int, parseIntOr d none = d) ∧
    (∀ (d : Int) (s : List Char), parseIntJs s = none → parseIntOr d (some s) = d) ∧
    (∀ (d : Int) (s : List Char), parseIntJs s = some 0 → parseIntOr d (some s) = d) ∧
    (∀ (d : Int) (s : List Char) (n : Int), parseIntJs s = some n → n ≠ 0 →
      parseIntOr d (some s) = n) := by
  refine ⟨?_, ?_, ?_, ?_, ?_⟩
  · intro r h
    simp [listConversionsHandler, h]
  · intro d
    rfl
  · intro d s h
    simp [parseIntOr, parseIntJsOpt, h]
  · intro d s h
    simp [parseIntOr, parseIntJsOpt, h]
  · intro d s n h hn
    simp [parseIntOr, parseIntJsOpt, h, hn]

/-- C8 witness: userId 5 with page 0 and a non-numeric pageSize falls back to
the defaults 1 and 10, and the storage result is returned with status 200. -/
theorem C8_list_conversions_witness :
    listConversionsHandler
      (fun u p ps => Except.ok [("u", Val.vnum (u.getD 0)), ("p", Val.vnum p), ("ps", Val.vnum ps)])
      (some "5".data) (some "0".data) (some "abc".data)
      = ⟨200, [("u", Val.vnum 5), ("p", Val.vnum 1), ("ps", Val.vnum 10)]⟩ :=
  (C8_list_conversions
    (fun u p ps => Except.ok [("u", Val.vnum (u.getD 0)), ("p", Val.vnum p), ("ps", Val.vnum ps)])
    (some "5".data) (some "0".data) (some "abc".data)).1
    [("u", Val.vnum 5), ("p", Val.vnum 1), ("ps", Val.vnum 10)] rfl

theorem createConversionHandler_spec (save : Obj → Except (List Char) Obj) (body : Obj) :
    ((createConversionHandler save body).status = 201 ∨
      (createConversionHandler save body).status = 500) ∧
    ((createConversionHandler save body).status = 500 →
      (createConversionHandler save body).body = errBody "Failed to save conversion") ∧
    (∀ e, save (setField body "userId"
        (match parseIntVal (getF body "userId") with
          | some n => Val.vnum n
          | none => Val.vnan)) = Except.error e →
      createConversionHandler save body = ⟨500, errBody "Failed to save conversion"⟩) := by
  unfold createConversionHandler
  split
  · rename_i c h
    refine ⟨Or.inl rfl, fun h5 => by simp at h5, fun e he => ?_⟩
    rw [he] at h
    exact Except.noConfusion h
  · exact ⟨Or.inr rfl, fun _ => rfl, fun e he => rfl⟩

theorem listConversionsHandler_spec (g : Option Int → Int → Int → Except (List Char) Obj)
    (userId page pageSize : Option (List Char)) :
    ((listConversionsHandler g userId page pageSize).status = 200 ∨
      (listConversionsHandler g userId page pageSize).status = 500) ∧
    ((listConversionsHandler g userId page pageSize).status = 500 →
      (listConversionsHandler g userId page pageSize).body
        = errBody "Failed to fetch conversions") ∧
    (∀ e, g (parseIntJsOpt userId) (parseIntOr 1 page) (parseIntOr 10 pageSize)
        = Except.error e →
      listConversionsHandler g userId page pageSize
        = ⟨500, errBody "Failed to fetch conversions"⟩) := by
  unfold listConversionsHandler
  split
  · rename_i r h
    refine ⟨Or.inl rfl, fun h5 => by simp at h5, fun e he => ?_⟩
    rw [he] at h
    exact Except.noConfusion h
  · exact ⟨Or.inr rfl, fun _ => rfl, fun e he => rfl⟩

/-- C9 counterexample: an exception raised by the rate fetch is not converted to
a 500 response; the exchange-rates route answers 200 with the fallback
snapshot, so the claim as stated fails at this input. -/
theorem C9_rate_fetch_counterexample :
    (exchangeRatesHandler (some "key") (fun _ => Except.error "network down".data)
      "t" (some "EUR")).1 = 200 ∧
    (exchangeRatesHandler (some "key") (fun _ => Except.error "network down".data)
      "t" (some "EUR")).1 ≠ 500 :=
  ⟨rfl, fun h => absurd h (by decide)⟩

/-- C9 amended: each storage-backed route catches every collaborator exception
and answers 500 with its fixed static message, independent of the error
content; failure statuses are only 400, 401 and 500; the rate fetch is the one
exception to the 500 rule, a failure there being recovered into a fallback 200
snapshot. -/
theorem C9_error_policy (f : ScryptFn) (sb : List Nat)
    (g : Option Val → Except (List Char) (Option Obj))
    (cr : Obj → Except (List Char) Obj) (body : Obj)
    (save : Obj → Except (List Char) Obj) (body2 : Obj)
    (gc : Option Int → Int → Int → Except (List Char) Obj)
    (userId page pageSize : Option (List Char))
    (apiKey : Option String) (httpGet : String → Except (List Char) RateSnapshot)
    (now : String) (baseQ : Option String) :
    ((registerHandler f sb g cr body).1.status = 400 ∨
      (registerHandler f sb g cr body).1.status = 201 ∨
      (registerHandler f sb g cr body).1.status = 500) ∧
    ((registerHandler f sb g cr body).1.status = 500 →
      (registerHandler f sb g cr body).1.body = errBody "Failed to register user") ∧
    (∀ e, g (getF body "username") = Except.error e →
      (registerHandler f sb g cr body).1 = ⟨500, errBody "Failed to register user"⟩) ∧
    ((loginHandler f g body).status = 401 ∨ (loginHandler f g body).status = 200 ∨
      (loginHandler f g body).status = 500) ∧
    ((loginHandler f g body).status = 500 →
      (loginHandler f g body).body = errBody "Login failed") ∧
    (∀ e, g (getF body "username") = Except.error e →
      loginHandler f g body = ⟨500, errBody "Login failed"⟩) ∧
    (exchangeRatesHandler apiKey httpGet now baseQ).1 = 200 ∧
    ((createConversionHandler save body2).status = 201 ∨
      (createConversionHandler save body2).status = 500) ∧
    ((createConversionHandler save body2).status = 500 →
      (createConversionHandler save body2).body = errBody "Failed to save conversion") ∧
    (∀ e, save (setField body2 "userId"
        (match parseIntVal (getF body2 "userId") with
          | some n => Val.vnum n
          | none => Val.vnan)) = Except.error e →
      createConversionHandler save body2 = ⟨500, errBody "Failed to save conversion"⟩) ∧
    ((listConversionsHandler gc userId page pageSize).status = 200 ∨
      (listConversionsHandler gc userId page pageSize).status = 500) ∧
    ((listConversionsHandler gc userId page pageSize).status = 500 →
      (listConversionsHandler gc userId page pageSize).body
        = errBody "Failed to fetch conversions") ∧
    (∀ e, gc (parseIntJsOpt userId) (parseIntOr 1 page) (parseIntOr 10 pageSize)
        = Except.error e →
      listConversionsHandler gc userId page pageSize
        = ⟨500, errBody "Failed to fetch conversions"⟩) := by
  obtain ⟨hc1, hc2, hc3⟩ := createConversionHandler_spec save body2
  obtain ⟨hl1, hl2, hl3⟩ := listConversionsHandler_spec gc userId page pageSize
  refine ⟨?_, ?_, ?_, ?_, ?_, ?_, rfl, hc1, hc2, hc3, hl1, hl2, hl3⟩
  · rcases registerHandler_spec f sb g cr body with ⟨h, _⟩ | ⟨h, _⟩ | ⟨h, _⟩
    · exact Or.inl h
    · exact Or.inr (Or.inr h)
    · exact Or.inr (Or.inl h)
  · intro h5
    rcases registerHandler_spec f sb g cr body with ⟨h, _⟩ | ⟨_, hb⟩ | ⟨h, _⟩
    · exfalso
      omega
    · exact hb
    · exfalso
      omega
  · intro e he
    simp [registerHandler, he]
  · rcases loginHandler_spec f g body with ⟨h, _⟩ | ⟨h, _⟩ | ⟨h, _⟩
    · exact Or.inl h
    · exact Or.inr (Or.inr h)
    · exact Or.inr (Or.inl h)
  · intro h5
    rcases loginHandler_spec f g body with ⟨h, _⟩ | ⟨_, hb⟩ | ⟨h, _⟩
    · exfalso
      omega
    · exact hb
    · exfalso
      omega
  · intro e he
    simp [loginHandler, he]

/-- C9 witness: a throwing storage collaborator yields the fixed 500 message on
each storage-backed route. -/
theorem C9_error_policy_witness :
    (registerHandler (fun _ _ n => List.replicate n 0) [] (fun _ => Except.error ['d'])
        (fun u => Except.ok u) []).1 = ⟨500, errBody "Failed to register user"⟩ ∧
    loginHandler (fun _ _ n => List.replicate n 0) (fun _ => Except.error ['d']) []
      = ⟨500, errBody "Login failed"⟩ ∧
    createConversionHandler (fun _ => Except.error ['d']) []
      = ⟨500, errBody "Failed to save conversion"⟩ ∧
    listConversionsHandler (fun _ _ _ => Except.error ['d']) none none none
      = ⟨500, errBody "Failed to fetch conversions"⟩ :=
  ⟨(C9_error_policy (fun _ _ n => List.replicate n 0) [] (fun _ => Except.error ['d'])
      (fun u => Except.ok u) [] (fun _ => Except.error ['d']) []
      (fun _ _ _ => Except.error ['d']) none none none none
      (fun _ => Except.ok (getFallbackRates "USD" "t")) "t" none).2.2.1 ['d'] rfl,
   (C9_error_policy (fun _ _ n => List.replicate n 0) [] (fun _ => Except.error ['d'])
      (fun u => Except.ok u) [] (fun _ => Except.error ['d']) []
      (fun _ _ _ => Except.error ['d']) none none none none
      (fun _ => Except.ok (getFallbackRates "USD" "t")) "t" none).2.2.2.2.2.1 ['d'] rfl,
   (C9_error_policy (fun _ _ n => List.replicate n 0) [] (fun _ => Except.error ['d'])
      (fun u => Except.ok u) [] (fun _ => Except.error ['d']) []
      (fun _ _ _ => Except.error ['d']) none none none none
      (fun _ => Except.ok (getFallbackRates "USD" "t")) "t" none).2.2.2.2.2.2.2.2.2.1 ['d'] rfl,
   (C9_error_policy (fun _ _ n => List.replicate n 0) [] (fun _ => Except.error ['d'])
      (fun u => Except.ok u) [] (fun _ => Except.error ['d']) []
      (fun _ _ _ => Except.error ['d']) none none none none
      (fun _ => Except.ok (getFallbackRates "USD" "t")) "t" none).2.2.2.2.2.2.2.2.2.2.2.2
      ['d'] rfl⟩

/-- C10: a stored credential without a dot separator makes comparePasswords
throw, the key derivation receiving an undefined salt, rather than return
false, so a login against such a credential is answered 500, not 401. -/
theorem C10_malformed_stored (f : ScryptFn) (pw stored : List Char) (h : '.' ∉ stored)
    (g : Option Val → Except (List Char) (Option Obj)) (body user : Obj)
    (hg : g (getF body "username") = Except.ok (some user))
    (hu : getF user "password" = some (Val.vstr stored))
    (hb : getF body "password" = some (Val.vstr pw)) :
    comparePasswords f pw stored = Except.error "salt is undefined".data ∧
    loginHandler f g body = ⟨500, errBody "Login failed"⟩ := by
  have hc : comparePasswords f pw stored = Except.error "salt is undefined".data := by
    unfold comparePasswords
    rw [splitDot_no_dot stored h]
  exact ⟨hc, by simp [loginHandler, hg, hu, hb, hc]⟩

/-- C10 witness: a concrete user whose stored credential is a bare word with no
separator makes the login respond 500. -/
theorem C10_malformed_stored_witness :
    comparePasswords (fun _ _ n => List.replicate n 0) ['p'] ['a', 'b', 'c']
      = Except.error "salt is undefined".data ∧
    loginHandler (fun _ _ n => List.replicate n 0)
      (fun _ => Except.ok (some [("password", Val.vstr ['a', 'b', 'c'])]))
      [("password", Val.vstr ['p'])] = ⟨500, errBody "Login failed"⟩ :=
  C10_malformed_stored (fun _ _ n => List.replicate n 0) ['p'] ['a', 'b', 'c'] (by decide)
    (fun _ => Except.ok (some [("password", Val.vstr ['a', 'b', 'c'])]))
    [("password", Val.vstr ['p'])] [("password", Val.vstr ['a', 'b', 'c'])] rfl rfl rfl

end Curren
